import Mathlib

/-!
# Verification of the snowwhite MDDFT solver core (mddftsolver.py)

Shallow embedding of `MddftProblem` and `MddftSolver` from
`src/mddftsolver.py`, together with theorems settling the frozen claims
about the module: canonical-name derivation, inverse-direction scaling in
`solve`, the unscaled reference path `runDef`, generator-script emission
(`_writeScript`) and CUDA host-wrapper emission (`_writeCudaHost`).

The surrounding `snowwhite` framework (base classes and option-key
constants) is not part of the provided source; the few values this module
reads from it are modelled from the specification and marked as such.
-/

/-- Modelled from the spec: the framework direction constant `SW_FORWARD`
from the `snowwhite` package (not present under src/).  The spec fixes the
generator-direction literal for a FORWARD problem at `-1` and the script
passes `-direction`, so the forward constant is `1`. -/
def SW_FORWARD : Int := 1

/-- Modelled from the spec: the framework direction constant `SW_INVERSE`
from the `snowwhite` package (not present under src/); the enumeration
value opposite to `SW_FORWARD`. -/
def SW_INVERSE : Int := -1

/-- Modelled from the spec: the options mapping consumed at construction.
The source reads two recognized keys from a Python dict
(`opts.get(SW_OPT_REALCTYPE, 0)` and `opts.get(SW_OPT_COLMAJOR, False)`);
we embed the mapping as a record with one field per recognized key.
`realCtype = some s` models the key being present with string value `s`,
`none` models it unset (the `0` default never equals a string). -/
structure Opts where
  realCtype : Option String
  colMajor : Bool
deriving Repr, DecidableEq

/-- The empty options mapping (the `opts = {}` default of the source). -/
def Opts.empty : Opts := ⟨none, false⟩

/-- Embeds `MddftProblem` (src/mddftsolver.py, lines 11-28): a problem is
its dimensions `ns` and its direction `k`. -/
structure MddftProblem where
  ns : List Nat
  k : Int
deriving Repr, DecidableEq

/-- Embeds `MddftProblem.__init__` called with both arguments. -/
def MddftProblem.mk2 (ns : List Nat) (k : Int) : MddftProblem := ⟨ns, k⟩

/-- Embeds `MddftProblem.__init__` called with the direction omitted:
the source declares `def __init__(self, ns, k=SW_FORWARD)`. -/
def MddftProblem.mk1 (ns : List Nat) : MddftProblem :=
  MddftProblem.mk2 ns SW_FORWARD

/-- Embeds the accessor `MddftProblem.dimensions`. -/
def MddftProblem.dimensions (p : MddftProblem) : List Nat := p.ns

/-- Embeds the accessor `MddftProblem.direction`. -/
def MddftProblem.direction (p : MddftProblem) : Int := p.k

/-- Embeds the name computation of `MddftSolver.__init__`
(src/mddftsolver.py, lines 36-47): type tag from the real-C-type option,
dimensions joined by `x`, `fwd`/`inv` from the direction, and a `_F`
suffix when the column-major option is set. -/
def namebase (p : MddftProblem) (opts : Opts) : String :=
  let typ := if opts.realCtype = some "float" then "c" else "z"
  let ns := String.intercalate "x" (p.dimensions.map (fun n => toString n))
  let base :=
    if p.direction = SW_FORWARD then
      typ ++ "mddft_fwd_" ++ ns
    else
      typ ++ "mddft_inv_" ++ ns
  if opts.colMajor then base ++ "_F" else base

/-- The canonical name exactly as the spec words it (section 3):
`{typeTag}mddft_{fwd|inv}_{dims joined by x}` with an optional `_F`
suffix when layout is COLUMN_MAJOR, where typeTag is `c` when
`realCtype == "float"` and `z` otherwise.  Stated independently of
`namebase` so the two can be compared. -/
def canonicalNameSpec (dims : List Nat) (dir : Int) (realCtype : Option String)
    (colMajor : Bool) : String :=
  let typeTag := if realCtype = some "float" then "c" else "z"
  let dirStr := if dir = SW_FORWARD then "fwd" else "inv"
  let base := typeTag ++ "mddft_" ++ dirStr ++ "_" ++
    String.intercalate "x" (dims.map (fun n => toString n))
  if colMajor then base ++ "_F" else base

/-- Strings are equal iff their character lists are. -/
lemma str_eq_iff_data (s t : String) : s = t ↔ s.data = t.data := by
  constructor
  · intro h; rw [h]
  · intro h; exact String.ext h

lemma str_append_assoc (a b c : String) : a ++ b ++ c = a ++ (b ++ c) := by
  rw [str_eq_iff_data]
  simp [String.data_append, List.append_assoc]

/-- C1: the name computed at construction matches the canonical-name
formula of the spec, for every problem and options mapping; and the
computation is deterministic. -/
theorem namebase_eq_spec (p : MddftProblem) (opts : Opts) :
    namebase p opts =
      canonicalNameSpec p.ns p.k opts.realCtype opts.colMajor ∧
    (∀ q : MddftProblem, ∀ o : Opts, q = p → o = opts →
      namebase q o = namebase p opts) := by
  constructor
  · unfold namebase canonicalNameSpec MddftProblem.dimensions MddftProblem.direction
    by_cases hk : p.k = SW_FORWARD <;>
      simp only [hk, if_true, if_false, reduceIte] <;>
      by_cases hr : opts.realCtype = some "float" <;>
      by_cases hc : opts.colMajor <;>
      simp [hk, hr, hc, str_append_assoc]
  · intro q o hq ho
    rw [hq, ho]

/-- Memory order of an allocated array: the `order='C'` / `order='F'`
argument of `xp.zeros` in `solve`. -/
inductive MemOrder
  | rowC
  | colF
deriving Repr, DecidableEq

/-- An n-dimensional array of the external array library, as far as this
module observes it: a shape, a dtype tag, a memory order and flat element
data.  Elements are embedded as rationals (the module only ever divides
them by an integer). -/
structure Arr where
  shape : List Nat
  dtype : String
  order : MemOrder
  data : List ℚ
deriving Repr, DecidableEq

/-- Placeholder array used by `List.getD` for out-of-range addresses. -/
def Arr.default0 : Arr := ⟨[], "", MemOrder.rowC, []⟩

/-- `xp.size`: the element count of an array, the product of its shape. -/
def Arr.size (a : Arr) : Nat := a.shape.prod

/-- Embeds `MddftSolver.solve` (src/mddftsolver.py, lines 66-77) over an
explicit store of arrays, so that allocation and frame effects are
visible: `store` is the live arrays, `srcAddr` the address of `src`.  The
compiled artifact `self._func` is external; it is modelled by `func`,
which gives the destination contents it writes as a function of the
source array — this encodes the assumption that the artifact writes only
through its destination argument.  `solve` allocates a zero destination
of shape `dimensions`, dtype of `src`, order `F` iff `self._colMajor`,
lets the artifact fill it, divides elementwise by `xp.size(dst)` when the
direction is `SW_INVERSE`, and returns the destination (its address in
the new store). -/
def MddftSolver.solve (p : MddftProblem) (colMajor : Bool)
    (func : Arr → List ℚ) (store : List Arr) (srcAddr : Nat) :
    List Arr × Nat :=
  let src := store.getD srcAddr Arr.default0
  let nt := p.dimensions
  let ordc := if colMajor then MemOrder.colF else MemOrder.rowC
  let dst1 : Arr := ⟨nt, src.dtype, ordc, func src⟩
  let dst2 : Arr :=
    if p.direction = SW_INVERSE then
      ⟨nt, src.dtype, ordc, dst1.data.map (fun x => x / (dst1.size : ℚ))⟩
    else dst1
  (store ++ [dst2], store.length)

/-- Embeds `MddftSolver.runDef` (src/mddftsolver.py, lines 51-61).  The
n-dimensional transforms `xp.fft.fftn` and `xp.fft.ifftn` belong to the
external array library (numpy or cupy), outside this module; they are
parameters of the model.  `runDef` selects one by direction and returns
its result unchanged. -/
def MddftSolver.runDef (p : MddftProblem) (fftn ifftn : Arr → Arr)
    (src : Arr) : Arr :=
  if p.direction = SW_FORWARD then fftn src else ifftn src

lemma getD_append_len {α : Type} (l : List α) (x d : α) :
    (l ++ [x]).getD l.length d = x := by
  induction l with
  | nil => rfl
  | cons a as ih => exact ih

lemma getD_append_lt {α : Type} (l m : List α) (i : Nat) (d : α)
    (h : i < l.length) : (l ++ m).getD i d = l.getD i d := by
  induction l generalizing i with
  | nil => simp at h
  | cons a as ih =>
    cases i with
    | zero => rfl
    | succ n =>
      have hn : n < as.length := by simpa using h
      simpa using ih n hn

/-- C2: for every input, `solve` with an INVERSE-direction problem
divides every element the artifact wrote into the destination by the
product of the problem dimensions before returning; with a
FORWARD-direction problem it returns the artifact output undivided. -/
theorem solve_inverse_divides (p : MddftProblem) (colMajor : Bool)
    (func : Arr → List ℚ) (store : List Arr) (srcAddr : Nat) :
    (p.direction = SW_INVERSE →
      ((MddftSolver.solve p colMajor func store srcAddr).1.getD
          (MddftSolver.solve p colMajor func store srcAddr).2
          Arr.default0).data =
        (func (store.getD srcAddr Arr.default0)).map
          (fun x => x / (p.ns.prod : ℚ))) ∧
    (p.direction = SW_FORWARD →
      ((MddftSolver.solve p colMajor func store srcAddr).1.getD
          (MddftSolver.solve p colMajor func store srcAddr).2
          Arr.default0).data =
        func (store.getD srcAddr Arr.default0)) := by
  unfold MddftSolver.solve
  simp only [getD_append_len]
  constructor
  · intro h
    simp [h, Arr.size, MddftProblem.dimensions]
  · intro h
    have h2 : p.direction ≠ SW_INVERSE := by
      rw [h]; unfold SW_FORWARD SW_INVERSE; decide
    simp [h2]

/-- C2 witness: a concrete INVERSE problem with dimensions `[2, 2]` on a
concrete artifact output shows the elementwise division by 4, and the
FORWARD case returns the artifact output unchanged. -/
theorem solve_inverse_divides_witness :
    ((MddftSolver.solve ⟨[2, 2], SW_INVERSE⟩ false (fun _ => [4, 8, 12, 16])
        [⟨[2, 2], "complex128", MemOrder.rowC, [1, 0, 0, 0]⟩] 0).1.getD
      (MddftSolver.solve ⟨[2, 2], SW_INVERSE⟩ false (fun _ => [4, 8, 12, 16])
        [⟨[2, 2], "complex128", MemOrder.rowC, [1, 0, 0, 0]⟩] 0).2
      Arr.default0).data = [1, 2, 3, 4] := by
  have h := solve_inverse_divides ⟨[2, 2], SW_INVERSE⟩ false
    (fun _ => [4, 8, 12, 16])
    [⟨[2, 2], "complex128", MemOrder.rowC, [1, 0, 0, 0]⟩] 0
  rw [h.1 rfl]
  norm_num

/-- C9: `solve` leaves every array already in the store (the source array
in particular) unchanged, and returns a freshly allocated destination at
an address distinct from every existing address, whose shape is the
problem dimensions, whose dtype is the dtype of the source, and whose
memory order is column-major exactly when the column-major option is set
— given that the compiled artifact writes only through its destination
argument, which is how `func` models it. -/
theorem solve_frame (p : MddftProblem) (colMajor : Bool)
    (func : Arr → List ℚ) (store : List Arr) (srcAddr : Nat) :
    (∀ i, i < store.length →
      (MddftSolver.solve p colMajor func store srcAddr).1.getD i Arr.default0 =
        store.getD i Arr.default0) ∧
    (∀ i, i < store.length →
      (MddftSolver.solve p colMajor func store srcAddr).2 ≠ i) ∧
    ((MddftSolver.solve p colMajor func store srcAddr).1.getD
        (MddftSolver.solve p colMajor func store srcAddr).2
        Arr.default0).shape = p.ns ∧
    ((MddftSolver.solve p colMajor func store srcAddr).1.getD
        (MddftSolver.solve p colMajor func store srcAddr).2
        Arr.default0).dtype = (store.getD srcAddr Arr.default0).dtype ∧
    ((MddftSolver.solve p colMajor func store srcAddr).1.getD
        (MddftSolver.solve p colMajor func store srcAddr).2
        Arr.default0).order =
      (if colMajor then MemOrder.colF else MemOrder.rowC) := by
  refine ⟨?_, ?_, ?_, ?_, ?_⟩
  · intro i hi
    unfold MddftSolver.solve
    exact getD_append_lt store _ i Arr.default0 hi
  · intro i hi
    have h2 : (MddftSolver.solve p colMajor func store srcAddr).2 =
        store.length := rfl
    omega
  · unfold MddftSolver.solve
    simp only [getD_append_len]
    by_cases h : p.direction = SW_INVERSE <;>
      simp [h, MddftProblem.dimensions]
  · unfold MddftSolver.solve
    simp only [getD_append_len]
    by_cases h : p.direction = SW_INVERSE <;> simp [h]
  · unfold MddftSolver.solve
    simp only [getD_append_len]
    by_cases h : p.direction = SW_INVERSE <;> simp [h]

/-- C9 witness: on a concrete one-array store, `solve` keeps the source
array intact and the fresh destination has the problem shape, the source
dtype and row-major order for an unset column-major option. -/
theorem solve_frame_witness :
    (MddftSolver.solve ⟨[2, 3], SW_FORWARD⟩ false (fun _ => [0, 0, 0, 0, 0, 0])
        [⟨[2, 3], "complex128", MemOrder.rowC, [1, 2, 3, 4, 5, 6]⟩] 0).1.getD
      0 Arr.default0 =
      ⟨[2, 3], "complex128", MemOrder.rowC, [1, 2, 3, 4, 5, 6]⟩ ∧
    ((MddftSolver.solve ⟨[2, 3], SW_FORWARD⟩ false (fun _ => [0, 0, 0, 0, 0, 0])
        [⟨[2, 3], "complex128", MemOrder.rowC, [1, 2, 3, 4, 5, 6]⟩] 0).1.getD
      (MddftSolver.solve ⟨[2, 3], SW_FORWARD⟩ false (fun _ => [0, 0, 0, 0, 0, 0])
        [⟨[2, 3], "complex128", MemOrder.rowC, [1, 2, 3, 4, 5, 6]⟩] 0).2
      Arr.default0).shape = [2, 3] := by
  have h := solve_frame ⟨[2, 3], SW_FORWARD⟩ false (fun _ => [0, 0, 0, 0, 0, 0])
    [⟨[2, 3], "complex128", MemOrder.rowC, [1, 2, 3, 4, 5, 6]⟩] 0
  exact ⟨h.1 0 (by decide), h.2.2.1⟩

/-- C3: `runDef` returns, for both directions, exactly the value of the
external library transform selected by the direction — `fftn` for
FORWARD, `ifftn` otherwise — with no 1/N (or any other) rescaling applied
by this module; when the library transforms preserve shape, the result
has the shape of the input. -/
theorem runDef_unscaled (p : MddftProblem) (fftn ifftn : Arr → Arr)
    (src : Arr)
    (hf : ∀ a, (fftn a).shape = a.shape)
    (hi : ∀ a, (ifftn a).shape = a.shape) :
    (MddftSolver.runDef p fftn ifftn src).shape = src.shape ∧
    (p.direction = SW_FORWARD →
      MddftSolver.runDef p fftn ifftn src = fftn src) ∧
    (p.direction ≠ SW_FORWARD →
      MddftSolver.runDef p fftn ifftn src = ifftn src) := by
  unfold MddftSolver.runDef
  by_cases h : p.direction = SW_FORWARD <;>
    simp [h, hf, hi]

/-- C3 witness: with identity stand-ins for the library transforms
(which preserve shape), a concrete INVERSE problem returns the `ifftn`
value itself — unscaled — with the input shape. -/
theorem runDef_unscaled_witness :
    (MddftSolver.runDef ⟨[4], SW_INVERSE⟩ (fun a => a) (fun a => a)
      ⟨[4], "complex128", MemOrder.rowC, [1, 2, 3, 4]⟩).shape = [4] ∧
    MddftSolver.runDef ⟨[4], SW_INVERSE⟩ (fun a => a) (fun a => a)
      ⟨[4], "complex128", MemOrder.rowC, [1, 2, 3, 4]⟩ =
      ⟨[4], "complex128", MemOrder.rowC, [1, 2, 3, 4]⟩ := by
  have h := runDef_unscaled ⟨[4], SW_INVERSE⟩ (fun a => a) (fun a => a)
    ⟨[4], "complex128", MemOrder.rowC, [1, 2, 3, 4]⟩
    (fun a => rfl) (fun a => rfl)
  exact ⟨h.1, h.2.2 (by decide)⟩

/-- Python `str()` of a list of integers, as used for
`dims = str(self._problem.dimensions())`: `[8, 8]`. -/
def pyStrList (ns : List Nat) : String :=
  "[" ++ String.intercalate ", " (ns.map (fun n => toString n)) ++ "]"

/-- Embeds `MddftSolver._writeScript` (src/mddftsolver.py, lines 79-110):
the list of strings printed to the script sink, one element per `print`
call, in order.  `genCuda` is the framework flag `self._genCuda`
selecting the GPU backend. -/
def MddftSolver.writeScript (p : MddftProblem) (opts : Opts)
    (genCuda : Bool) : List String :=
  let filename := namebase p opts
  let nameroot := if genCuda then namebase p opts ++ "_cu" else namebase p opts
  let filetype := if genCuda then ".cu" else ".c"
  let dims := pyStrList p.dimensions
  ["Load(fftx);",
   "ImportAll(fftx);",
   (if genCuda then "conf := LocalConfig.fftx.confGPU();"
    else "conf := LocalConfig.fftx.defaultConf();"),
   "t := let(ns := " ++ dims ++ ",",
   "    name := \"" ++ nameroot ++ "\",",
   (if opts.colMajor then
      "    TFCall(TRC(TColMajor(MDDFT(ns, " ++ toString (p.direction * -1) ++
        "))), rec(fname := name, params := []))"
    else
      "    TFCall(TRC(MDDFT(ns, " ++ toString (p.direction * -1) ++
        ")), rec(fname := name, params := []))"),
   ");",
   "opts := conf.getOpts(t);"] ++
  (if opts.realCtype = some "float" then ["opts.TRealCtype := \"float\";"]
   else []) ++
  ["tt := opts.tagIt(t);",
   "",
   "c := opts.fftxGen(tt);",
   "PrintTo(\"" ++ filename ++ filetype ++ "\", opts.prettyPrint(c));",
   ""]

/-- Boolean test that `pat` is an initial segment of `l`. -/
def chPfx : List Char → List Char → Bool
  | [], _ => true
  | _ :: _, [] => false
  | a :: asx, b :: bs => a == b && chPfx asx bs

/-- Boolean test that `pat` occurs contiguously somewhere in `l`. -/
def chSub (pat : List Char) : List Char → Bool
  | [] => pat.isEmpty
  | c :: cs => chPfx pat (c :: cs) || chSub pat cs

/-- `strHasSub s pat` holds when `pat` occurs as a contiguous substring
of `s`. -/
def strHasSub (s pat : String) : Bool := chSub pat.data s.data

/-- The statement kinds of the generator-script wire contract, in the
terms of the spec: load generator module, import namespace, select
configuration, declare transform term, fetch options, set real-type
option, tag options, generate code, serialize to the output file. -/
inductive StmtKind
  | load
  | importNs
  | selectConf
  | declareTerm
  | fetchOpts
  | setRealType
  | tagOpts
  | genCode
  | serialize
  | blank
  | other
deriving Repr, DecidableEq

/-- Classifies an emitted script line as one of the spec's statement
kinds, by its leading characters. -/
def classify (l : String) : StmtKind :=
  if chPfx "Load(".data l.data then StmtKind.load
  else if chPfx "ImportAll(".data l.data then StmtKind.importNs
  else if chPfx "conf := ".data l.data then StmtKind.selectConf
  else if chPfx "t := let(".data l.data then StmtKind.declareTerm
  else if chPfx "    name := ".data l.data then StmtKind.declareTerm
  else if chPfx "    TFCall(".data l.data then StmtKind.declareTerm
  else if chPfx ");".data l.data then StmtKind.declareTerm
  else if chPfx "opts := conf.getOpts".data l.data then StmtKind.fetchOpts
  else if chPfx "opts.TRealCtype".data l.data then StmtKind.setRealType
  else if chPfx "tt := opts.tagIt".data l.data then StmtKind.tagOpts
  else if chPfx "c := opts.fftxGen".data l.data then StmtKind.genCode
  else if chPfx "PrintTo(".data l.data then StmtKind.serialize
  else if l.data.isEmpty then StmtKind.blank
  else StmtKind.other

lemma classify_tLine (v : String) :
    classify ("t := let(ns := " ++ v ++ ",") = StmtKind.declareTerm := by
  unfold classify
  rw [show ("t := let(ns := " ++ v ++ ",").data =
    "t := let(ns := ".data ++ (v.data ++ ",".data) from by
      rw [String.data_append, String.data_append, List.append_assoc]]
  generalize v.data ++ ",".data = w
  rfl

lemma classify_nameLine (v : String) :
    classify ("    name := \"" ++ v ++ "\",") = StmtKind.declareTerm := by
  unfold classify
  rw [show ("    name := \"" ++ v ++ "\",").data =
    "    name := \"".data ++ (v.data ++ "\",".data) from by
      rw [String.data_append, String.data_append, List.append_assoc]]
  generalize v.data ++ "\",".data = w
  rfl

lemma classify_tfColLine (v : String) :
    classify ("    TFCall(TRC(TColMajor(MDDFT(ns, " ++ v ++
      "))), rec(fname := name, params := []))") = StmtKind.declareTerm := by
  unfold classify
  rw [show ("    TFCall(TRC(TColMajor(MDDFT(ns, " ++ v ++
      "))), rec(fname := name, params := []))").data =
    "    TFCall(TRC(TColMajor(MDDFT(ns, ".data ++
      (v.data ++ "))), rec(fname := name, params := []))".data) from by
      rw [String.data_append, String.data_append, List.append_assoc]]
  generalize v.data ++ "))), rec(fname := name, params := []))".data = w
  rfl

lemma classify_tfRowLine (v : String) :
    classify ("    TFCall(TRC(MDDFT(ns, " ++ v ++
      ")), rec(fname := name, params := []))") = StmtKind.declareTerm := by
  unfold classify
  rw [show ("    TFCall(TRC(MDDFT(ns, " ++ v ++
      ")), rec(fname := name, params := []))").data =
    "    TFCall(TRC(MDDFT(ns, ".data ++
      (v.data ++ ")), rec(fname := name, params := []))".data) from by
      rw [String.data_append, String.data_append, List.append_assoc]]
  generalize v.data ++ ")), rec(fname := name, params := []))".data = w
  rfl

lemma classify_printLine (v u : String) :
    classify ("PrintTo(\"" ++ v ++ u ++ "\", opts.prettyPrint(c));") =
      StmtKind.serialize := by
  unfold classify
  rw [show ("PrintTo(\"" ++ v ++ u ++ "\", opts.prettyPrint(c));").data =
    "PrintTo(\"".data ++
      (v.data ++ (u.data ++ "\", opts.prettyPrint(c));".data)) from by
      rw [String.data_append, String.data_append, String.data_append,
        List.append_assoc, List.append_assoc]]
  generalize v.data ++ (u.data ++ "\", opts.prettyPrint(c));".data) = w
  rfl

/-- C4: the direction value written into the transform term of the
emitted script (line index 5) is `-1` times the problem's internal
direction constant: `-1 * SW_FORWARD` for a FORWARD problem and
`-1 * SW_INVERSE` for an INVERSE problem, whatever the layout or
backend. -/
theorem script_direction_negated (p : MddftProblem) (opts : Opts)
    (genCuda : Bool) :
    (p.direction = SW_FORWARD →
      (MddftSolver.writeScript p opts genCuda).getD 5 "" =
        (if opts.colMajor then
          "    TFCall(TRC(TColMajor(MDDFT(ns, " ++
            toString ((-1) * SW_FORWARD) ++
            "))), rec(fname := name, params := []))"
         else
          "    TFCall(TRC(MDDFT(ns, " ++ toString ((-1) * SW_FORWARD) ++
            ")), rec(fname := name, params := []))")) ∧
    (p.direction = SW_INVERSE →
      (MddftSolver.writeScript p opts genCuda).getD 5 "" =
        (if opts.colMajor then
          "    TFCall(TRC(TColMajor(MDDFT(ns, " ++
            toString ((-1) * SW_INVERSE) ++
            "))), rec(fname := name, params := []))"
         else
          "    TFCall(TRC(MDDFT(ns, " ++ toString ((-1) * SW_INVERSE) ++
            ")), rec(fname := name, params := []))")) := by
  constructor <;> intro hk <;>
    unfold MddftSolver.writeScript <;>
    simp only [List.cons_append, List.getD_cons_succ, List.getD_cons_zero] <;>
    rw [hk] <;>
    by_cases hc : opts.colMajor <;>
    simp [hc]

/-- C4 witness: at concrete FORWARD and INVERSE problems with dimensions
`[8, 8]` and an empty options mapping, the transform-term line carries
the literals `-1` and `1` respectively. -/
theorem script_direction_negated_witness :
    (MddftSolver.writeScript ⟨[8, 8], SW_FORWARD⟩ ⟨none, false⟩ false).getD 5
      "" =
      "    TFCall(TRC(MDDFT(ns, " ++ toString ((-1) * SW_FORWARD) ++
        ")), rec(fname := name, params := []))" ∧
    (MddftSolver.writeScript ⟨[8, 8], SW_INVERSE⟩ ⟨none, false⟩ false).getD 5
      "" =
      "    TFCall(TRC(MDDFT(ns, " ++ toString ((-1) * SW_INVERSE) ++
        ")), rec(fname := name, params := []))" := by
  constructor
  · have h := (script_direction_negated ⟨[8, 8], SW_FORWARD⟩ ⟨none, false⟩
      false).1 rfl
    simpa using h
  · have h := (script_direction_negated ⟨[8, 8], SW_INVERSE⟩ ⟨none, false⟩
      false).2 rfl
    simpa using h

/-- C5: for dimensions `[8, 8]`, direction FORWARD, column-major unset,
real type unset, CPU backend, the emitted script has a transform term
with direction literal `-1`, no `TColMajor` wrapper on any line, no
real-type option line, and an output file named with extension `.c`. -/
theorem script_concrete_8x8 :
    (MddftSolver.writeScript ⟨[8, 8], SW_FORWARD⟩ ⟨none, false⟩ false).getD 5
      "" =
      "    TFCall(TRC(MDDFT(ns, -1)), rec(fname := name, params := []))" ∧
    ((MddftSolver.writeScript ⟨[8, 8], SW_FORWARD⟩ ⟨none, false⟩
        false).all (fun l => ! strHasSub l "TColMajor")) = true ∧
    ((MddftSolver.writeScript ⟨[8, 8], SW_FORWARD⟩ ⟨none, false⟩
        false).all (fun l => ! strHasSub l "TRealCtype")) = true ∧
    (MddftSolver.writeScript ⟨[8, 8], SW_FORWARD⟩ ⟨none, false⟩ false).getD 11
      "" =
      "PrintTo(\"zmddft_fwd_8x8.c\", opts.prettyPrint(c));" := by
  refine ⟨by decide, by decide, by decide, by decide⟩

/-- C6: for every configuration, the kinds of the emitted script
statements appear in the fixed order — load module, import namespace,
select configuration, declare the transform term (four lines), fetch
options, optionally set the real-type option, tag options, generate
code, serialize to the named output file — and the real-type option line
is present exactly when the real-C-type option is `"float"`. -/
theorem script_statement_order (p : MddftProblem) (opts : Opts)
    (genCuda : Bool) :
    (MddftSolver.writeScript p opts genCuda).map classify =
      ([StmtKind.load, StmtKind.importNs, StmtKind.selectConf,
        StmtKind.declareTerm, StmtKind.declareTerm, StmtKind.declareTerm,
        StmtKind.declareTerm, StmtKind.fetchOpts] ++
       (if opts.realCtype = some "float" then [StmtKind.setRealType]
        else []) ++
       [StmtKind.tagOpts, StmtKind.blank, StmtKind.genCode,
        StmtKind.serialize, StmtKind.blank]) ∧
    (StmtKind.setRealType ∈
        (MddftSolver.writeScript p opts genCuda).map classify ↔
      opts.realCtype = some "float") := by
  have h1 : (MddftSolver.writeScript p opts genCuda).map classify =
      ([StmtKind.load, StmtKind.importNs, StmtKind.selectConf,
        StmtKind.declareTerm, StmtKind.declareTerm, StmtKind.declareTerm,
        StmtKind.declareTerm, StmtKind.fetchOpts] ++
       (if opts.realCtype = some "float" then [StmtKind.setRealType]
        else []) ++
       [StmtKind.tagOpts, StmtKind.blank, StmtKind.genCode,
        StmtKind.serialize, StmtKind.blank]) := by
    unfold MddftSolver.writeScript
    by_cases hr : opts.realCtype = some "float" <;>
      by_cases hc : opts.colMajor <;>
      cases genCuda <;>
      simp only [hr, hc, if_true, if_false, ite_true, ite_false,
        Bool.false_eq_true, List.map_append, List.map_cons,
        List.map_nil, List.cons_append, List.nil_append] <;>
      rw [classify_tLine, classify_nameLine, classify_printLine] <;>
      first
        | (rw [classify_tfColLine]; decide)
        | (rw [classify_tfRowLine]; decide)
  refine ⟨h1, ?_⟩
  rw [h1]
  by_cases hr : opts.realCtype = some "float" <;> simp [hr]

/-- Embeds `MddftSolver._writeCudaHost` (src/mddftsolver.py, lines
112-157): the list of strings printed to the host file, one element per
`print` call, in order.  `nb` is `self._namebase`.  The element type is
`double` unless the real-C-type option is `"float"`.  The input and
output size strings computed in the source are never printed and so do
not appear.  Brace characters of the C code are written `\x7b` and
`\x7d`. -/
def MddftSolver.writeCudaHost (nb : String) (opts : Opts) : List String :=
  let typ := if opts.realCtype = some "float" then "float" else "double"
  let genby := "Host-to-Device C/CUDA Wrapper generated by MddftSolver"
  ["/*",
   " * " ++ genby,
   " */",
   "",
   "#include <helper_cuda.h> \n",
   "extern void init_" ++ nb ++ "_cu();",
   "extern void " ++ nb ++ "_cu" ++ "(" ++ typ ++ "  *Y, " ++ typ ++
     "  *X);",
   "extern void destroy_" ++ nb ++ "_cu();\n",
   "extern \"C\" \x7b \n",
   "void init_" ++ nb ++ "()" ++ "\x7b",
   "    init_" ++ nb ++ "_cu();",
   "\x7d \n",
   "void " ++ nb ++ "(" ++ typ ++ "  *Y, " ++ typ ++ "  *X) \x7b",
   "    " ++ nb ++ "_cu(Y, X);",
   "    checkCudaErrors(cudaGetLastError());",
   "\x7d \n",
   "void destroy_" ++ nb ++ "() \x7b",
   "    destroy_" ++ nb ++ "_cu();",
   "\x7d \n",
   "\x7d"]

lemma append2_ne (a s t1 t2 : String)
    (hlen : s.data.length = t2.data.length) (hne : s ≠ t2)
    (h : a ++ s = t1 ++ t2) : False := by
  rw [str_eq_iff_data, String.data_append, String.data_append] at h
  exact hne (String.ext (List.append_inj' h hlen).2)

/-- C7: for every canonical name, the emitted host wrapper defines
exactly three entry points (the lines opening a function definition,
`void ...`): `init_<name>`, `<name>` and `destroy_<name>`; it contains
exactly one device-error-check line, placed directly after the wrapped
transform call; and the element type in the signatures is `double`
unless the real-C-type option is `"float"`, in which case it is
`float`. -/
theorem cudaHost_contract (nb : String) (opts : Opts) :
    (MddftSolver.writeCudaHost nb opts).countP
        (fun l => chPfx "void ".data l.data) = 3 ∧
    (MddftSolver.writeCudaHost nb opts).getD 9 "" =
      "void init_" ++ nb ++ "()" ++ "\x7b" ∧
    (MddftSolver.writeCudaHost nb opts).getD 12 "" =
      "void " ++ nb ++ "(" ++
        (if opts.realCtype = some "float" then "float" else "double") ++
        "  *Y, " ++
        (if opts.realCtype = some "float" then "float" else "double") ++
        "  *X) \x7b" ∧
    (MddftSolver.writeCudaHost nb opts).getD 16 "" =
      "void destroy_" ++ nb ++ "() \x7b" ∧
    (MddftSolver.writeCudaHost nb opts).countP
        (fun l =>
          decide (l = "    checkCudaErrors(cudaGetLastError());")) = 1 ∧
    (MddftSolver.writeCudaHost nb opts).getD 13 "" =
      "    " ++ nb ++ "_cu(Y, X);" ∧
    (MddftSolver.writeCudaHost nb opts).getD 14 "" =
      "    checkCudaErrors(cudaGetLastError());" := by
  refine ⟨?_, rfl, rfl, rfl, ?_, rfl, rfl⟩
  · have hv1 : ∀ w : List Char,
        chPfx "void ".data ("extern void init_".data ++ w) = false :=
      fun w => rfl
    have hv2 : ∀ w : List Char,
        chPfx "void ".data ("extern void ".data ++ w) = false :=
      fun w => rfl
    have hv3 : ∀ w : List Char,
        chPfx "void ".data ("extern void destroy_".data ++ w) = false :=
      fun w => rfl
    have hv4 : ∀ w : List Char,
        chPfx "void ".data ("void init_".data ++ w) = true :=
      fun w => rfl
    have hv5 : ∀ w : List Char,
        chPfx "void ".data ("    init_".data ++ w) = false :=
      fun w => rfl
    have hv6 : ∀ w : List Char,
        chPfx "void ".data ("void ".data ++ w) = true :=
      fun w => rfl
    have hv7 : ∀ w : List Char,
        chPfx "void ".data ("    ".data ++ w) = false :=
      fun w => rfl
    have hv8 : ∀ w : List Char,
        chPfx "void ".data ("void destroy_".data ++ w) = true :=
      fun w => rfl
    have hv9 : ∀ w : List Char,
        chPfx "void ".data ("    destroy_".data ++ w) = false :=
      fun w => rfl
    simp only [MddftSolver.writeCudaHost, List.countP_cons, List.countP_nil,
      String.data_append, List.append_assoc]
    rw [hv1, hv2, hv3, hv4, hv5, hv6, hv7, hv8, hv9]
    decide
  · have h5 : ("extern void init_" ++ nb ++ "_cu();") ≠
        "    checkCudaErrors(cudaGetLastError());" := fun hc =>
      append2_ne ("extern void init_" ++ nb) "_cu();"
        "    checkCudaErrors(cudaGetLastErr" "or());" (by decide) (by decide)
        (hc.trans (by decide))
    have h6 : ("extern void " ++ nb ++ "_cu" ++ "(" ++
        (if opts.realCtype = some "float" then "float" else "double") ++
        "  *Y, " ++
        (if opts.realCtype = some "float" then "float" else "double") ++
        "  *X);") ≠ "    checkCudaErrors(cudaGetLastError());" := fun hc =>
      append2_ne _ "  *X);"
        "    checkCudaErrors(cudaGetLastErr" "or());" (by decide) (by decide)
        (hc.trans (by decide))
    have h7 : ("extern void destroy_" ++ nb ++ "_cu();\n") ≠
        "    checkCudaErrors(cudaGetLastError());" := fun hc =>
      append2_ne ("extern void destroy_" ++ nb) "_cu();\n"
        "    checkCudaErrors(cudaGetLastEr" "ror());" (by decide) (by decide)
        (hc.trans (by decide))
    have h9 : ("void init_" ++ nb ++ "()" ++ "\x7b") ≠
        "    checkCudaErrors(cudaGetLastError());" := fun hc =>
      append2_ne ("void init_" ++ nb ++ "()") "\x7b"
        "    checkCudaErrors(cudaGetLastError())" ";" (by decide) (by decide)
        (hc.trans (by decide))
    have h10 : ("    init_" ++ nb ++ "_cu();") ≠
        "    checkCudaErrors(cudaGetLastError());" := fun hc =>
      append2_ne ("    init_" ++ nb) "_cu();"
        "    checkCudaErrors(cudaGetLastErr" "or());" (by decide) (by decide)
        (hc.trans (by decide))
    have h12 : ("void " ++ nb ++ "(" ++
        (if opts.realCtype = some "float" then "float" else "double") ++
        "  *Y, " ++
        (if opts.realCtype = some "float" then "float" else "double") ++
        "  *X) \x7b") ≠
        "    checkCudaErrors(cudaGetLastError());" := fun hc =>
      append2_ne _ "  *X) \x7b"
        "    checkCudaErrors(cudaGetLastEr" "ror());" (by decide) (by decide)
        (hc.trans (by decide))
    have h13 : ("    " ++ nb ++ "_cu(Y, X);") ≠
        "    checkCudaErrors(cudaGetLastError());" := fun hc =>
      append2_ne ("    " ++ nb) "_cu(Y, X);"
        "    checkCudaErrors(cudaGetLas" "tError());" (by decide) (by decide)
        (hc.trans (by decide))
    have h16 : ("void destroy_" ++ nb ++ "() \x7b") ≠
        "    checkCudaErrors(cudaGetLastError());" := fun hc =>
      append2_ne ("void destroy_" ++ nb) "() \x7b"
        "    checkCudaErrors(cudaGetLastError" "());" (by decide) (by decide)
        (hc.trans (by decide))
    have h17 : ("    destroy_" ++ nb ++ "_cu();") ≠
        "    checkCudaErrors(cudaGetLastError());" := fun hc =>
      append2_ne ("    destroy_" ++ nb) "_cu();"
        "    checkCudaErrors(cudaGetLastErr" "or());" (by decide) (by decide)
        (hc.trans (by decide))
    simp only [MddftSolver.writeCudaHost, List.countP_cons, List.countP_nil,
      decide_eq_true_eq]
    rw [if_neg h5, if_neg h6, if_neg h7, if_neg h9, if_neg h10, if_neg h12,
      if_neg h13, if_neg h16, if_neg h17]
    decide

/-- A constructor argument as the dynamically typed Python caller can
pass it: either a genuine `MddftProblem`, or any other value (carrying
only the name of its type, which is all the `isinstance` check can
observe). -/
inductive PyArg
  | problem (p : MddftProblem)
  | nonProblem (typeName : String)
deriving Repr, DecidableEq

/-- Embeds the construction guard of `MddftSolver.__init__`
(src/mddftsolver.py, lines 32-34 and 36-49): a non-`MddftProblem`
argument raises `TypeError("problem must be an MddftProblem")`
synchronously, before any other work; an `MddftProblem` argument passes
the guard and construction proceeds to compute the canonical name. -/
def MddftSolver.init (arg : PyArg) (opts : Opts) : Except String String :=
  match arg with
  | PyArg.nonProblem _ => Except.error "problem must be an MddftProblem"
  | PyArg.problem p => Except.ok (namebase p opts)

/-- C8: constructing a Solver with an argument that is not an
`MddftProblem` fails immediately with the type error, for every such
argument and options mapping; constructing it with an `MddftProblem`
never produces this error. -/
theorem init_type_guard (opts : Opts) :
    (∀ t : String, MddftSolver.init (PyArg.nonProblem t) opts =
      Except.error "problem must be an MddftProblem") ∧
    (∀ p : MddftProblem, MddftSolver.init (PyArg.problem p) opts =
      Except.ok (namebase p opts)) :=
  ⟨fun _ => rfl, fun _ => rfl⟩

lemma chPfx_extend (pat a b : List Char) (h : chPfx pat a = true) :
    chPfx pat (a ++ b) = true := by
  induction pat generalizing a with
  | nil => rfl
  | cons c cs ih =>
    cases a with
    | nil => exact absurd h (by simp [chPfx])
    | cons d ds =>
      simp only [chPfx, Bool.and_eq_true] at h
      simp only [List.cons_append, chPfx, Bool.and_eq_true]
      exact ⟨h.1, ih ds h.2⟩

lemma chSub_extend (pat a b : List Char) (h : chSub pat a = true) :
    chSub pat (a ++ b) = true := by
  induction a with
  | nil =>
    simp only [chSub, List.isEmpty_iff] at h
    subst h
    cases b with
    | nil => rfl
    | cons c cs => simp [chSub, chPfx]
  | cons c cs ih =>
    simp only [chSub, Bool.or_eq_true] at h
    simp only [List.cons_append, chSub, Bool.or_eq_true]
    rcases h with h | h
    · exact Or.inl (by simpa using chPfx_extend pat (c :: cs) b h)
    · exact Or.inr (ih h)

/-- C10: an `MddftProblem` constructed with the direction omitted has
direction `SW_FORWARD`, and the canonical name a Solver derives from it
contains `fwd`, for every dimension list and options mapping. -/
theorem default_direction_forward (ns : List Nat) (opts : Opts) :
    (MddftProblem.mk1 ns).direction = SW_FORWARD ∧
    strHasSub (namebase (MddftProblem.mk1 ns) opts) "fwd" = true := by
  refine ⟨rfl, ?_⟩
  unfold strHasSub namebase MddftProblem.mk1 MddftProblem.mk2
    MddftProblem.direction MddftProblem.dimensions
  by_cases hr : opts.realCtype = some "float" <;>
    by_cases hc : opts.colMajor <;>
    simp only [hr, hc, if_true, if_false, ite_true, ite_false,
      Bool.false_eq_true, String.data_append, List.append_assoc]
  · exact chSub_extend "fwd".data ("c".data ++ "mddft_fwd_".data) _
      (by decide)
  · exact chSub_extend "fwd".data ("c".data ++ "mddft_fwd_".data) _
      (by decide)
  · exact chSub_extend "fwd".data ("z".data ++ "mddft_fwd_".data) _
      (by decide)
  · exact chSub_extend "fwd".data ("z".data ++ "mddft_fwd_".data) _
      (by decide)

/-- C1 witness: the theorem applied at a concrete problem and options
mapping, the determinism hypotheses discharged by `rfl`, and the name
evaluated on that input. -/
theorem namebase_eq_spec_witness :
    namebase ⟨[8, 8], SW_FORWARD⟩ ⟨none, false⟩ =
      canonicalNameSpec [8, 8] SW_FORWARD none false ∧
    namebase ⟨[8, 8], SW_FORWARD⟩ ⟨none, false⟩ =
      namebase ⟨[8, 8], SW_FORWARD⟩ ⟨none, false⟩ ∧
    namebase ⟨[8, 8], SW_FORWARD⟩ ⟨none, false⟩ = "zmddft_fwd_8x8" := by
  have h := namebase_eq_spec ⟨[8, 8], SW_FORWARD⟩ ⟨none, false⟩
  exact ⟨h.1, h.2 ⟨[8, 8], SW_FORWARD⟩ ⟨none, false⟩ rfl rfl, by decide⟩

/-- C6 witness: the statement-kind sequence evaluated at a concrete
configuration with the real-type option unset. -/
theorem script_statement_order_witness :
    (MddftSolver.writeScript ⟨[8, 8], SW_FORWARD⟩ ⟨none, false⟩
        false).map classify =
      [StmtKind.load, StmtKind.importNs, StmtKind.selectConf,
       StmtKind.declareTerm, StmtKind.declareTerm, StmtKind.declareTerm,
       StmtKind.declareTerm, StmtKind.fetchOpts, StmtKind.tagOpts,
       StmtKind.blank, StmtKind.genCode, StmtKind.serialize,
       StmtKind.blank] := by
  have h := (script_statement_order ⟨[8, 8], SW_FORWARD⟩ ⟨none, false⟩
    false).1
  simpa using h

/-- C7 witness: the two counts evaluated at the canonical name
`zmddft_fwd_8x8` with an empty options mapping. -/
theorem cudaHost_contract_witness :
    (MddftSolver.writeCudaHost "zmddft_fwd_8x8" ⟨none, false⟩).countP
        (fun l => chPfx "void ".data l.data) = 3 ∧
    (MddftSolver.writeCudaHost "zmddft_fwd_8x8" ⟨none, false⟩).countP
        (fun l =>
          decide (l = "    checkCudaErrors(cudaGetLastError());")) = 1 := by
  have h := cudaHost_contract "zmddft_fwd_8x8" ⟨none, false⟩
  exact ⟨h.1, h.2.2.2.2.1⟩

/-- C8 witness: a concrete non-Problem argument is rejected with the
type error and a concrete `MddftProblem` is accepted. -/
theorem init_type_guard_witness :
    MddftSolver.init (PyArg.nonProblem "int") ⟨none, false⟩ =
      Except.error "problem must be an MddftProblem" ∧
    MddftSolver.init (PyArg.problem ⟨[8, 8], SW_FORWARD⟩) ⟨none, false⟩ =
      Except.ok "zmddft_fwd_8x8" := by
  have h := init_type_guard ⟨none, false⟩
  refine ⟨h.1 "int", ?_⟩
  rw [h.2 ⟨[8, 8], SW_FORWARD⟩]
  exact congrArg Except.ok (by decide)

/-- C10 witness: the theorem evaluated at concrete dimensions and an
empty options mapping. -/
theorem default_direction_forward_witness :
    (MddftProblem.mk1 [8, 8]).direction = SW_FORWARD ∧
    strHasSub (namebase (MddftProblem.mk1 [8, 8]) ⟨none, false⟩) "fwd" =
      true :=
  default_direction_forward [8, 8] ⟨none, false⟩
